import Mathlib

/-!
Verification of the conversation-persistence and formatting layer of a
Flask chat application (three source files: `utils.py`, `database.py`,
`app.py`).  The Python code is shallowly embedded: SQLite tables become
Lean lists of rows, each SQL statement becomes the corresponding pure
list transformation, and the Flask route handlers become pure functions
from an application state and a request body to a new state and a
response value.  Timestamps (`CURRENT_TIMESTAMP`) are modelled as `Nat`
values supplied by the caller as a clock argument.
-/

namespace GeminiFlask

/-! ## utils.py — sanitizing formatter -/

/-- `ALLOWED_TAGS` from `utils.py`: the HTML tag allow-list handed to
`bleach.clean`. -/
def ALLOWED_TAGS : List String :=
  ["p", "br", "strong", "em", "u", "h1", "h2", "h3", "h4", "h5", "h6",
   "blockquote", "code", "pre", "hr", "div", "span", "ul", "ol", "li",
   "table", "thead", "tbody", "tr", "th", "td", "a", "img"]

/-- `ALLOWED_ATTRIBUTES` from `utils.py`, as a function from a tag name to
the attribute names allowed on that tag (tags not in the dict allow no
attributes). -/
def ALLOWED_ATTRIBUTES : String → List String
  | "a" => ["href", "title", "target"]
  | "img" => ["src", "alt", "title", "width", "height"]
  | "code" => ["class"]
  | "pre" => ["class"]
  | "span" => ["class"]
  | "div" => ["class"]
  | _ => []

/-- An HTML fragment: a text node, or an element with a tag name, an
attribute list (name/value pairs) and child fragments.  This is the
document form on which `bleach.clean` operates after parsing. -/
inductive Html where
  | text : String → Html
  | elem : String → List (String × String) → List Html → Html

mutual

/-- `bleach.clean(html, tags=ALLOWED_TAGS, attributes=ALLOWED_ATTRIBUTES,
strip=True)` on a single node, as called in `utils.py`: an allowed
element keeps only its allowed attributes and recursively cleaned
children; a disallowed element is stripped, its (cleaned) children kept
in its place; text is kept. -/
def cleanNode : Html → List Html
  | .text s => [.text s]
  | .elem t attrs cs =>
      if t ∈ ALLOWED_TAGS then
        [.elem t (attrs.filter fun a => a.1 ∈ ALLOWED_ATTRIBUTES t) (cleanForest cs)]
      else
        cleanForest cs

/-- `bleach.clean` over a list of sibling nodes. -/
def cleanForest : List Html → List Html
  | [] => []
  | h :: hs => cleanNode h ++ cleanForest hs

end

mutual

/-- A node respects the allow-lists: its tag is in `ALLOWED_TAGS`, every
attribute name is allowed for that tag, and all children do too. -/
def nodeAllowed : Html → Bool
  | .text _ => true
  | .elem t attrs cs =>
      decide (t ∈ ALLOWED_TAGS) &&
      attrs.foldr (fun a acc => decide (a.1 ∈ ALLOWED_ATTRIBUTES t) && acc) true &&
      forestAllowed cs

/-- All nodes of a forest respect the allow-lists. -/
def forestAllowed : List Html → Bool
  | [] => true
  | h :: hs => nodeAllowed h && forestAllowed hs

end

mutual

/-- Whether an element with the given tag occurs anywhere in a node. -/
def hasTagNode (tag : String) : Html → Bool
  | .text _ => false
  | .elem t _ cs => t == tag || hasTagForest tag cs

/-- Whether an element with the given tag occurs anywhere in a forest. -/
def hasTagForest (tag : String) : List Html → Bool
  | [] => false
  | h :: hs => hasTagNode tag h || hasTagForest tag hs

end

mutual

/-- Whether an attribute with the given name occurs anywhere in a node. -/
def hasAttrNode (name : String) : Html → Bool
  | .text _ => false
  | .elem _ attrs cs =>
      attrs.foldr (fun a acc => a.1 == name || acc) false || hasAttrForest name cs

/-- Whether an attribute with the given name occurs anywhere in a forest. -/
def hasAttrForest (name : String) : List Html → Bool
  | [] => false
  | h :: hs => hasAttrNode name h || hasAttrForest name hs

end

/-- Modelled from the spec: the markdown renderer (the third-party
`markdown` library invoked by `format_message` in `utils.py`, not part of
this repository).  The spec documents that formatting `**bold**` yields a
`<strong>`-equivalent wrapping "bold"; the model renders a fully
`**`-delimited input as a paragraph holding a `strong` element, and any
other input as a plain paragraph.  The sanitizer below runs on whatever
this renderer produces, and the safety theorems quantify over arbitrary
renderer output. -/
def md_render (s : String) : List Html :=
  let cs := s.toList
  if 4 < cs.length ∧ cs.take 2 = ['*', '*'] ∧ cs.reverse.take 2 = ['*', '*'] then
    [.elem "p" [] [.elem "strong" [] [.text (String.mk (((cs.drop 2).reverse.drop 2).reverse))]]]
  else
    [.elem "p" [] [.text s]]

/-- `format_message` from `utils.py`: render markdown to HTML, then clean
the result against the tag/attribute allow-lists with `strip=True`. -/
def format_message (s : String) : List Html :=
  cleanForest (md_render s)

mutual

/-- Serialization of a cleaned HTML node back to a string (the value
`bleach.clean` actually returns and the app stores as
`formatted_content`). -/
def renderNode : Html → String
  | .text s => s
  | .elem t attrs cs =>
      "<" ++ t ++ attrs.foldr (fun a acc => " " ++ a.1 ++ "=\"" ++ a.2 ++ "\"" ++ acc) "" ++
        ">" ++ renderForest cs ++ "</" ++ t ++ ">"

/-- Serialization of a forest of HTML nodes. -/
def renderForest : List Html → String
  | [] => ""
  | h :: hs => renderNode h ++ renderForest hs

end

/-! ## database.py — conversation store

SQLite tables are embedded as lists of rows kept in rowid (insertion)
order; each method of `ChatDatabase` becomes the corresponding pure list
transformation.  `CURRENT_TIMESTAMP` is a `Nat` clock value passed by
the caller. -/

/-- A row of the `sessions` table (`id`, `created_at`, `updated_at`,
`title` defaulting to New Chat, `model_name`). -/
structure SessionRow where
  id : String
  created_at : Nat
  updated_at : Nat
  title : String
  model_name : String
deriving DecidableEq

/-- A row of the `messages` table (`id` AUTOINCREMENT, `session_id`,
`sender`, `content`, `formatted_content`, `timestamp`). -/
structure MessageRow where
  id : Nat
  session_id : String
  sender : String
  content : String
  formatted_content : Option String
  timestamp : Nat
deriving DecidableEq

/-- The database state: both tables in rowid order, plus the next
AUTOINCREMENT value for `messages.id`. -/
structure DB where
  sessions : List SessionRow
  messages : List MessageRow
  nextId : Nat
deriving DecidableEq

/-- A freshly initialized database (`init_database` creates empty
tables; AUTOINCREMENT starts at 1). -/
def emptyDB : DB := ⟨[], [], 1⟩

/-- `create_session` from `database.py`: `INSERT INTO sessions (id,
title) VALUES (?, ?)` with `title or 'New Chat'` (Python `or`: `None`
and the empty string both fall back to the default).  `id` is the
primary key, so inserting an existing id raises `IntegrityError`,
modelled as `none`. -/
def create_session (db : DB) (session_id : String) (title : Option String) (now : Nat) :
    Option DB :=
  if db.sessions.any (fun s => s.id == session_id) then
    none
  else
    let t := match title with
      | none => "New Chat"
      | some t0 => if t0 = "" then "New Chat" else t0
    some { db with sessions := db.sessions ++ [⟨session_id, now, now, t, "gemini-1.5-flash"⟩] }

/-- `get_session` from `database.py`: `SELECT ... FROM sessions WHERE
id = ?`, `fetchone`. -/
def get_session (db : DB) (session_id : String) : Option SessionRow :=
  db.sessions.find? (fun s => s.id == session_id)

/-- The title derived from a first user message in `add_message`:
`content[:50] + '...' if len(content) > 50 else content`. -/
def titleFor (content : String) : String :=
  if content.length > 50 then content.take 50 ++ "..." else content

/-- The effect of one `add_message` call on one `sessions` row: the
`UPDATE ... SET updated_at = CURRENT_TIMESTAMP WHERE id = ?` statement,
then — only when the sender is `user` — the `UPDATE ... SET title = ?
WHERE id = ? AND title = 'New Chat'` statement. -/
def updSessionOnMessage (session_id sender content : String) (now : Nat) (s : SessionRow) :
    SessionRow :=
  if s.id == session_id then
    let s1 := { s with updated_at := now }
    if sender == "user" && s1.title == "New Chat" then
      { s1 with title := titleFor content }
    else s1
  else s

/-- `add_message` from `database.py`: insert the message row, refresh the
session `updated_at`, and auto-generate the title from a first user
message while the title is still the default.  The `messages` insert
does not check that the session exists (SQLite foreign keys are not
enabled on these connections, so the `FOREIGN KEY` clause is not
enforced). -/
def add_message (db : DB) (session_id sender content : String)
    (formatted_content : Option String) (now : Nat) : DB :=
  { sessions := db.sessions.map (updSessionOnMessage session_id sender content now),
    messages := db.messages ++ [⟨db.nextId, session_id, sender, content, formatted_content, now⟩],
    nextId := db.nextId + 1 }

/-- The projection `SELECT sender, content, formatted_content,
timestamp` used by `get_messages`. -/
structure MessageOut where
  sender : String
  content : String
  formatted_content : Option String
  timestamp : Nat
deriving DecidableEq

/-- The `ORDER BY timestamp ASC` comparison on message rows. -/
def byTimeAsc (a b : MessageRow) : Prop := a.timestamp ≤ b.timestamp

instance : DecidableRel byTimeAsc := fun a b => Nat.decLe a.timestamp b.timestamp

instance : IsTotal MessageRow byTimeAsc := ⟨fun a b => Nat.le_total a.timestamp b.timestamp⟩

instance : IsTrans MessageRow byTimeAsc := ⟨fun _ _ _ h1 h2 => Nat.le_trans h1 h2⟩

/-- `get_messages` from `database.py`: `SELECT sender, content,
formatted_content, timestamp FROM messages WHERE session_id = ? ORDER BY
timestamp ASC`.  The sort on the timestamp column is modelled as a
stable insertion sort of the rows in rowid order. -/
def get_messages (db : DB) (session_id : String) : List MessageOut :=
  ((db.messages.filter (fun m => m.session_id == session_id)).insertionSort byTimeAsc).map
    (fun m => ⟨m.sender, m.content, m.formatted_content, m.timestamp⟩)

/-- `delete_session` from `database.py`: `DELETE FROM sessions WHERE
id = ?`.  The `messages` table is untouched: although the schema
declares `ON DELETE CASCADE`, the sqlite3 connections opened by this
code never run `PRAGMA foreign_keys = ON`, and SQLite keeps foreign-key
enforcement (cascades included) off by default, so deleting a session
leaves its message rows in place. -/
def delete_session (db : DB) (session_id : String) : DB :=
  { db with sessions := db.sessions.filter (fun s => !(s.id == session_id)) }

/-- SQLite `LIKE` pattern matching: `%` matches any run of characters,
`_` matches exactly one character, and ordinary characters compare
case-insensitively on ASCII letters (which is what `Char.toLower`
folds). -/
def likeMatch : List Char → List Char → Bool
  | [], s => s.isEmpty
  | p :: ps, s =>
    if p = '%' then s.tails.any (fun s2 => likeMatch ps s2)
    else
      match s with
      | [] => false
      | c :: s2 => (if p = '_' then true else p.toLower == c.toLower) && likeMatch ps s2

/-- A result row of `search_messages`: `SELECT m.session_id, s.title,
m.sender, m.content, m.timestamp`. -/
structure SearchHit where
  session_id : String
  session_title : String
  sender : String
  content : String
  timestamp : Nat
deriving DecidableEq

/-- The `ORDER BY m.timestamp DESC` comparison on search rows. -/
def byTimeDesc (a b : SearchHit) : Prop := b.timestamp ≤ a.timestamp

instance : DecidableRel byTimeDesc := fun a b => Nat.decLe b.timestamp a.timestamp

instance : IsTotal SearchHit byTimeDesc := ⟨fun a b => Nat.le_total b.timestamp a.timestamp⟩

instance : IsTrans SearchHit byTimeDesc := ⟨fun _ _ _ h1 h2 => Nat.le_trans h2 h1⟩

/-- `search_messages` from `database.py`: join `messages` with
`sessions` on `session_id`, keep the rows whose `content LIKE
'%' || query || '%'`, order by timestamp descending, and keep at most
`limit` rows (the Python default is `limit=50`). -/
def search_messages (db : DB) (query : String) (limit : Nat) : List SearchHit :=
  let joined := db.messages.filterMap (fun m =>
    (db.sessions.find? (fun s => s.id == m.session_id)).map (fun s =>
      (⟨m.session_id, s.title, m.sender, m.content, m.timestamp⟩ : SearchHit)))
  let matched := joined.filter
    (fun h => likeMatch ('%' :: (query.toList ++ ['%'])) h.content.toList)
  (matched.insertionSort byTimeDesc).take limit

/-- A read operation against the backing store, used to trace the I/O an
operation performs. -/
inductive StoreOp where
  | getSession : String → StoreOp
  | getMessages : String → StoreOp
deriving DecidableEq

/-- The document produced by a successful export: the parsed form of the
`json.dumps` output, or the plain-text transcript. -/
inductive ExportDoc where
  | jsonDoc : Option SessionRow → List MessageOut → ExportDoc
  | txtDoc : String → ExportDoc
deriving DecidableEq

/-- The outcome of `ChatDatabase.export_session`: a document, the
`TypeError` raised by subscripting `None` when the session is absent in
the `txt` branch, or the `ValueError` raised for an unsupported
format. -/
inductive ExportResult where
  | ok : ExportDoc → ExportResult
  | typeError : ExportResult
  | valueError : String → ExportResult
deriving DecidableEq

/-- The transcript text built by the `txt` branch of `export_session`. -/
def renderTxt (session : SessionRow) (messages : List MessageOut) : String :=
  let header := "Chat Session: " ++ session.title ++ "\n" ++
    "Created: " ++ toString session.created_at ++ "\n" ++
    "Model: " ++ session.model_name ++ "\n" ++
    String.mk (List.replicate 50 '=') ++ "\n\n"
  messages.foldl (fun acc msg =>
    acc ++ msg.sender.toUpper ++ " [" ++ toString msg.timestamp ++ "]:\n" ++
      msg.content ++ "\n\n") header

/-- `export_session` from `database.py`.  Faithful to the source order:
it first reads the session and the messages (the returned trace lists
these reads), and only then branches on the format.  For format `txt`
with an absent session, `session['title']` subscripts `None`, raising
`TypeError`; for a format other than `json`/`txt` it raises
`ValueError("Unsupported format: ...")` — but only after the two
reads. -/
def export_session (db : DB) (session_id : String) (format : String) :
    ExportResult × List StoreOp :=
  let session := get_session db session_id
  let messages := get_messages db session_id
  let trace := [StoreOp.getSession session_id, StoreOp.getMessages session_id]
  if format = "json" then
    (.ok (.jsonDoc session messages), trace)
  else if format = "txt" then
    match session with
    | none => (.typeError, trace)
    | some s => (.ok (.txtDoc (renderTxt s messages)), trace)
  else
    (.valueError ("Unsupported format: " ++ format), trace)

/-! ## app.py — request dispatcher

Each Flask route becomes a pure function from the application state
(database plus the in-memory `chat_sessions` map) and the request body
to a new state and a response.  The Gemini model reply is an oracle
passed as an argument; the clock is a `Nat` argument. -/

/-- One turn of the history handed to `model.start_chat`: role `user`
for a user-sent message, role `model` otherwise. -/
inductive Turn where
  | user : String → Turn
  | model : String → Turn
deriving DecidableEq

/-- The application state: the database plus the process-lifetime
`chat_sessions` dict mapping a session id to its in-memory context. -/
structure AppState where
  db : DB
  chat_sessions : List (String × List Turn)
deriving DecidableEq

/-- The JSON body of a POST `/chat` request; absent fields are `none`
(`data.get` supplies the defaults). -/
structure ChatBody where
  message : Option String
  session_id : Option String
deriving DecidableEq

/-- The response of the `/chat` route: `{response, raw_response,
session_id}` on success, or an `{error}` envelope with status 400 or
500. -/
inductive ChatResp where
  | ok : String → String → String → ChatResp
  | err400 : String → ChatResp
  | err500 : String → ChatResp
deriving DecidableEq

/-- The replayed history loaded from the store on first reference:
`role = 'user' if msg['sender'] == 'user' else 'model'`. -/
def historyFromMessages (msgs : List MessageOut) : List Turn :=
  msgs.map (fun m => if m.sender == "user" then Turn.user m.content else Turn.model m.content)

/-- The `/chat` route from `app.py`.  `session_id` defaults to the
literal `default` when the body omits it; an empty message is rejected
with a 400 before any state change; on first reference to a session id
the route creates the session in the store when absent and loads its
history; the user message is saved, the model reply (`reply`, the
oracle) is formatted and saved, and both turns extend the in-memory
context. -/
def chat_route (st : AppState) (body : ChatBody) (reply : String) (now : Nat) :
    AppState × ChatResp :=
  let user_message := body.message.getD ""
  let session_id := body.session_id.getD "default"
  if user_message = "" then
    (st, .err400 "No message provided")
  else
    let ensured : Option AppState :=
      if (st.chat_sessions.lookup session_id).isSome then some st
      else
        let dbc : Option DB :=
          match get_session st.db session_id with
          | some _ => some st.db
          | none => create_session st.db session_id none now
        match dbc with
        | none => none
        | some db1 =>
            let history := historyFromMessages (get_messages db1 session_id)
            some ⟨db1, st.chat_sessions ++ [(session_id, history)]⟩
    match ensured with
    | none => (st, .err500 "UNIQUE constraint failed: sessions.id")
    | some st1 =>
        let db2 := add_message st1.db session_id "user" user_message none now
        let formatted := renderForest (format_message reply)
        let db3 := add_message db2 session_id "assistant" reply (some formatted) now
        let ctx := st1.chat_sessions.map (fun e =>
          if e.1 == session_id then (e.1, e.2 ++ [Turn.user user_message, Turn.model reply])
          else e)
        (⟨db3, ctx⟩, .ok formatted reply session_id)

/-- The response of the `/search` route: `{results}` on success or the
`{error}` envelope. -/
inductive SearchResp where
  | ok : List SearchHit → SearchResp
  | err : String → SearchResp
deriving DecidableEq

/-- Whether a `/search` response is an error envelope. -/
def SearchResp.isErr : SearchResp → Bool
  | .ok _ => false
  | .err _ => true

/-- The `/search` route from `app.py`: an empty (or absent) query is
answered with `{'results': []}` and status 200 — not an error — and
otherwise `search_messages` runs with its default limit of 50.  The
route never mutates the state. -/
def search_route (st : AppState) (query : Option String) : AppState × SearchResp :=
  let q := query.getD ""
  if q = "" then (st, .ok [])
  else (st, .ok (search_messages st.db q 50))

/-- The response of the `/export/<id>/<format>` route: a file download,
a 400 `{error}` for a bad format, or a 500 `{error}` for an exception
raised below the route. -/
inductive HttpExportResp where
  | file : ExportDoc → HttpExportResp
  | err400 : String → HttpExportResp
  | err500 : String → HttpExportResp
deriving DecidableEq

/-- The `/export/<session_id>/<format>` route from `app.py`: formats
outside `json`/`txt` are rejected with a 400 before any call into the
store (the empty trace records that no store I/O ran); otherwise the
store-level `export_session` runs and an exception from it becomes a
500. -/
def export_route (db : DB) (session_id : String) (format : String) :
    HttpExportResp × List StoreOp :=
  if ¬(format = "json" ∨ format = "txt") then
    (.err400 "Invalid format. Use json or txt", [])
  else
    match export_session db session_id format with
    | (.ok doc, trace) => (.file doc, trace)
    | (.typeError, trace) => (.err500 "TypeError: NoneType is not subscriptable", trace)
    | (.valueError m, trace) => (.err500 m, trace)

/-! ## Specification-side notions and concrete stores used by theorems -/

/-- Case-insensitive (ASCII folding) prefix test on character lists,
the spec-side notion used to compare `LIKE` matching with substring
containment. -/
def isPrefixCI : List Char → List Char → Bool
  | [], _ => true
  | _ :: _, [] => false
  | a :: as, b :: bs => (a.toLower == b.toLower) && isPrefixCI as bs

/-- Case-insensitive (ASCII folding) substring containment: some suffix
of `s` starts with `q` up to ASCII case. -/
def containsCI : List Char → List Char → Bool
  | [], q => isPrefixCI q []
  | c :: s, q => isPrefixCI q (c :: s) || containsCI s q

/-- A single `add_message` call description, used to reason about
sequences of appends. -/
structure AddOp where
  session_id : String
  sender : String
  content : String
  formatted_content : Option String
  now : Nat

/-- Apply one described `add_message` call. -/
def applyAdd (db : DB) (op : AddOp) : DB :=
  add_message db op.session_id op.sender op.content op.formatted_content op.now

/-- Apply a sequence of `add_message` calls in order. -/
def applyAdds (db : DB) (ops : List AddOp) : DB := ops.foldl applyAdd db

/-- The observable title of a session (`None` when the session is
absent). -/
def titleOf (db : DB) (sid : String) : Option String :=
  (get_session db sid).map (fun s => s.title)

/-- The sequence of observable titles of a session along a sequence of
`add_message` calls, starting from the current state. -/
def titleTrace (db : DB) (sid : String) : List AddOp → List (Option String)
  | [] => [titleOf db sid]
  | op :: ops => titleOf db sid :: titleTrace (applyAdd db op) sid ops

/-- How many times adjacent entries of a trace differ. -/
def countChanges : List (Option String) → Nat
  | [] => 0
  | [_] => 0
  | a :: b :: rest => (if a = b then 0 else 1) + countChanges (b :: rest)

/-- A store holding one session `s1` (title already set to `Hi`) and one
message belonging to it. -/
def dbA : DB :=
  ⟨[⟨"s1", 0, 0, "Hi", "gemini-1.5-flash"⟩], [⟨1, "s1", "user", "Hi", none, 0⟩], 2⟩

/-- A store holding one session `s1` still at the default title and no
messages. -/
def dbFresh : DB :=
  ⟨[⟨"s1", 0, 0, "New Chat", "gemini-1.5-flash"⟩], [], 1⟩

/-- A store holding one session and one message whose content is the
single character `x`. -/
def dbX : DB :=
  ⟨[⟨"s1", 0, 0, "t1", "gemini-1.5-flash"⟩], [⟨1, "s1", "user", "x", none, 0⟩], 2⟩

/-- A store holding one session and two messages, one containing
`hello`. -/
def dbHello : DB :=
  ⟨[⟨"s1", 0, 0, "t1", "gemini-1.5-flash"⟩],
   [⟨1, "s1", "user", "say hello", none, 3⟩, ⟨2, "s1", "assistant", "bye", none, 5⟩], 3⟩

/-- An application state over the empty store with no in-memory
contexts. -/
def st0 : AppState := ⟨emptyDB, []⟩

/-! ## Theorems: sanitizing formatter -/

/-- Folding the allow-check over a list filtered by the same check
always yields `true`. -/
theorem foldr_and_filter {α : Type} (p : α → Bool) (l : List α) :
    (l.filter p).foldr (fun a acc => p a && acc) true = true := by
  induction l with
  | nil => rfl
  | cons a l ih =>
    by_cases h : p a = true
    · simp [List.filter_cons, h, ih]
    · simp [List.filter_cons, h, ih]

/-- `forestAllowed` distributes over appending forests. -/
theorem forestAllowed_append (a b : List Html) :
    forestAllowed (a ++ b) = (forestAllowed a && forestAllowed b) := by
  induction a with
  | nil => simp [forestAllowed]
  | cons h hs ih => simp [forestAllowed, ih, Bool.and_assoc]

mutual

/-- Cleaning a single node yields only allow-listed tags and attributes. -/
theorem cleanNode_allowed : ∀ h : Html, forestAllowed (cleanNode h) = true
  | .text s => rfl
  | .elem t attrs cs => by
      unfold cleanNode
      by_cases ht : t ∈ ALLOWED_TAGS
      · rw [if_pos ht]
        simp only [forestAllowed, nodeAllowed, Bool.and_true]
        rw [cleanForest_allowed cs]
        simp [ht, foldr_and_filter]
      · rw [if_neg ht]
        exact cleanForest_allowed cs

/-- Cleaning a forest yields only allow-listed tags and attributes. -/
theorem cleanForest_allowed : ∀ l : List Html, forestAllowed (cleanForest l) = true
  | [] => rfl
  | h :: hs => by
      unfold cleanForest
      rw [forestAllowed_append, cleanNode_allowed h, cleanForest_allowed hs]
      rfl

end

/-- Every attribute name the allow-list admits, for any tag, is one of
the eight listed attribute names. -/
theorem mem_ALLOWED_ATTRIBUTES (t name : String) (h : name ∈ ALLOWED_ATTRIBUTES t) :
    name ∈ ["href", "title", "target", "src", "alt", "width", "height", "class"] := by
  unfold ALLOWED_ATTRIBUTES at h
  split at h <;> simp_all <;> tauto

mutual

/-- An allow-listed node contains no element with a tag outside
`ALLOWED_TAGS`. -/
theorem nodeAllowed_hasTag (tag : String) (hmem : tag ∉ ALLOWED_TAGS) :
    ∀ h : Html, nodeAllowed h = true → hasTagNode tag h = false
  | .text _, _ => rfl
  | .elem t attrs cs, hall => by
      simp only [nodeAllowed, Bool.and_eq_true] at hall
      simp only [hasTagNode, Bool.or_eq_false_iff]
      refine ⟨?_, forestAllowed_hasTag tag hmem cs hall.2⟩
      have ht : t ∈ ALLOWED_TAGS := by
        have := hall.1.1
        simpa using this
      by_cases he : t = tag
      · exact absurd (he ▸ ht) hmem
      · simpa using he

/-- An allow-listed forest contains no element with a tag outside
`ALLOWED_TAGS`. -/
theorem forestAllowed_hasTag (tag : String) (hmem : tag ∉ ALLOWED_TAGS) :
    ∀ l : List Html, forestAllowed l = true → hasTagForest tag l = false
  | [], _ => rfl
  | h :: hs, hall => by
      simp only [forestAllowed, Bool.and_eq_true] at hall
      simp only [hasTagForest, Bool.or_eq_false_iff]
      exact ⟨nodeAllowed_hasTag tag hmem h hall.1, forestAllowed_hasTag tag hmem hs hall.2⟩

end

mutual

/-- An allow-listed node carries no attribute whose name falls outside
every per-tag attribute allow-list. -/
theorem nodeAllowed_hasAttr (name : String)
    (hmem : ∀ t : String, name ∉ ALLOWED_ATTRIBUTES t) :
    ∀ h : Html, nodeAllowed h = true → hasAttrNode name h = false
  | .text _, _ => rfl
  | .elem t attrs cs, hall => by
      simp only [nodeAllowed, Bool.and_eq_true] at hall
      simp only [hasAttrNode, Bool.or_eq_false_iff]
      refine ⟨?_, forestAllowed_hasAttr name hmem cs hall.2⟩
      have hattrs := hall.1.2
      clear hall
      induction attrs with
      | nil => rfl
      | cons a as ih =>
          simp only [List.foldr, Bool.and_eq_true] at hattrs
          simp only [List.foldr, Bool.or_eq_false_iff]
          refine ⟨?_, ih hattrs.2⟩
          have ha : a.1 ∈ ALLOWED_ATTRIBUTES t := by
            have := hattrs.1
            simpa using this
          by_cases he : a.1 = name
          · exact absurd (he ▸ ha) (hmem t)
          · simpa using he

/-- An allow-listed forest carries no attribute whose name falls outside
every per-tag attribute allow-list. -/
theorem forestAllowed_hasAttr (name : String)
    (hmem : ∀ t : String, name ∉ ALLOWED_ATTRIBUTES t) :
    ∀ l : List Html, forestAllowed l = true → hasAttrForest name l = false
  | [], _ => rfl
  | h :: hs, hall => by
      simp only [forestAllowed, Bool.and_eq_true] at hall
      simp only [hasAttrForest, Bool.or_eq_false_iff]
      exact ⟨nodeAllowed_hasAttr name hmem h hall.1, forestAllowed_hasAttr name hmem hs hall.2⟩

end

/-- `onclick` appears on no per-tag attribute allow-list. -/
theorem onclick_not_allowed (t : String) : "onclick" ∉ ALLOWED_ATTRIBUTES t := by
  intro h
  have := mem_ALLOWED_ATTRIBUTES t "onclick" h
  simp at this

/-- C1: For every input (equivalently, for every HTML document the
markdown renderer may produce), the sanitization step of
`format_message` leaves only allow-listed tags with allow-listed
attributes; in particular no `script` element and no `onclick` attribute
ever survives, and `format_message` output satisfies the same bound for
every input string; formatting `**bold**` yields a `<strong>` element
wrapping `bold` (inside the paragraph the renderer emits). -/
theorem format_message_sanitized :
    (∀ rendered : List Html, forestAllowed (cleanForest rendered) = true) ∧
    (∀ rendered : List Html, hasTagForest "script" (cleanForest rendered) = false) ∧
    (∀ rendered : List Html, hasAttrForest "onclick" (cleanForest rendered) = false) ∧
    (∀ s : String, forestAllowed (format_message s) = true) ∧
    format_message "**bold**" =
      [Html.elem "p" [] [Html.elem "strong" [] [Html.text "bold"]]] := by
  refine ⟨cleanForest_allowed, ?_, ?_, ?_, ?_⟩
  · intro rendered
    exact forestAllowed_hasTag "script" (by decide) _ (cleanForest_allowed rendered)
  · intro rendered
    exact forestAllowed_hasAttr "onclick" onclick_not_allowed _ (cleanForest_allowed rendered)
  · intro s
    exact cleanForest_allowed (md_render s)
  · rfl

/-! ## Theorems: session titles -/

/-- `add_message` never changes the id of a session row. -/
theorem updSessionOnMessage_id (sid sender content : String) (now : Nat) (s : SessionRow) :
    (updSessionOnMessage sid sender content now s).id = s.id := by
  unfold updSessionOnMessage
  by_cases h1 : (s.id == sid) = true
  · rw [if_pos h1]
    dsimp only
    by_cases h2 : (sender == "user" && s.title == "New Chat") = true
    · rw [if_pos h2]
    · rw [if_neg h2]
  · rw [if_neg h1]

/-- `get_session` after `add_message` sees each session row through the
per-row update. -/
theorem get_session_add_message (db : DB) (sid2 sid sender content : String)
    (fc : Option String) (now : Nat) :
    get_session (add_message db sid2 sender content fc now) sid =
      (get_session db sid).map (updSessionOnMessage sid2 sender content now) := by
  simp only [get_session, add_message]
  rw [List.find?_map]
  have hp : ((fun s : SessionRow => s.id == sid) ∘ updSessionOnMessage sid2 sender content now) =
      (fun s : SessionRow => s.id == sid) := by
    funext s
    simp [Function.comp, updSessionOnMessage_id]
  rw [hp]

/-- A session row whose title differs from the default keeps its title
across `add_message`. -/
theorem updSessionOnMessage_title_stable (sid sender content : String) (now : Nat)
    (s : SessionRow) (h : s.title ≠ "New Chat") :
    (updSessionOnMessage sid sender content now s).title = s.title := by
  unfold updSessionOnMessage
  split
  · have hb : (s.title == "New Chat") = false := by simpa using h
    simp [hb]
  · rfl

/-- If `add_message` changed a title, the title was still the default. -/
theorem updSessionOnMessage_change (sid sender content : String) (now : Nat) (s : SessionRow)
    (h : (updSessionOnMessage sid sender content now s).title ≠ s.title) :
    s.title = "New Chat" := by
  by_contra hne
  exact h (updSessionOnMessage_title_stable sid sender content now s hne)

/-- C8: When the first user message sets a session title (the session is
present with the default title `New Chat`), the title becomes the
message content when the content has at most 50 characters, and the
content truncated to 50 characters followed by the ellipsis marker
`...` otherwise. -/
theorem first_user_message_title (db : DB) (sid content : String) (fc : Option String)
    (now : Nat) (s : SessionRow) (hfind : get_session db sid = some s)
    (hdef : s.title = "New Chat") :
    titleOf (add_message db sid "user" content fc now) sid =
      some (if content.length ≤ 50 then content else content.take 50 ++ "...") := by
  have hid : (s.id == sid) = true := by
    have h1 := hfind
    unfold get_session at h1
    have h2 := List.find?_some h1
    simpa using h2
  have ht : titleFor content =
      if content.length ≤ 50 then content else content.take 50 ++ "..." := by
    unfold titleFor
    rcases Nat.lt_or_ge 50 content.length with h | h
    · rw [if_pos h, if_neg (by omega)]
    · rw [if_neg (by omega), if_pos h]
  unfold titleOf
  rw [get_session_add_message, hfind]
  simp [updSessionOnMessage, hid, hdef, ht]

/-- The observable title is unchanged by one `add_message` call when it
is not the default. -/
theorem titleOf_applyAdd_stable (db : DB) (sid t : String) (op : AddOp)
    (h : titleOf db sid = some t) (hne : t ≠ "New Chat") :
    titleOf (applyAdd db op) sid = some t := by
  unfold titleOf at h ⊢
  unfold applyAdd
  rw [get_session_add_message]
  cases hfind : get_session db sid with
  | none => rw [hfind] at h; simp at h
  | some s =>
    rw [hfind] at h
    have hst : s.title = t := by simpa using h
    have hstable := updSessionOnMessage_title_stable op.session_id op.sender op.content op.now s
      (by rw [hst]; exact hne)
    simp [hstable, hst]

/-- The observable title is unchanged by any sequence of `add_message`
calls when it is not the default. -/
theorem titleOf_applyAdds_stable (db : DB) (sid t : String) (ops : List AddOp)
    (h : titleOf db sid = some t) (hne : t ≠ "New Chat") :
    titleOf (applyAdds db ops) sid = some t := by
  induction ops generalizing db with
  | nil => exact h
  | cons op ops ih =>
    simp only [applyAdds, List.foldl_cons]
    exact ih (applyAdd db op) (titleOf_applyAdd_stable db sid t op h hne)

/-- When one `add_message` call changes the observable title, the old
title was the default and the new one is not. -/
theorem titleOf_change (db : DB) (sid : String) (op : AddOp)
    (h : titleOf (applyAdd db op) sid ≠ titleOf db sid) :
    titleOf db sid = some "New Chat" ∧
      ∃ t, titleOf (applyAdd db op) sid = some t ∧ t ≠ "New Chat" := by
  unfold titleOf applyAdd at h ⊢
  rw [get_session_add_message] at h ⊢
  cases hfind : get_session db sid with
  | none => rw [hfind] at h; simp at h
  | some s =>
    rw [hfind] at h
    have hne : (updSessionOnMessage op.session_id op.sender op.content op.now s).title ≠
        s.title := by simpa using h
    have hdef := updSessionOnMessage_change op.session_id op.sender op.content op.now s hne
    rw [hdef] at hne
    exact ⟨by simp [hdef], (updSessionOnMessage op.session_id op.sender op.content op.now s).title,
      by simp, hne⟩

/-- Unfolding the title trace along one appended operation. -/
theorem titleTrace_cons_eq (db : DB) (sid : String) (op : AddOp) (ops : List AddOp) :
    titleTrace db sid (op :: ops) = titleOf db sid :: titleTrace (applyAdd db op) sid ops := rfl

/-- Counting changes across a cons onto a title trace. -/
theorem countChanges_cons_trace (x : Option String) (db : DB) (sid : String) (ops : List AddOp) :
    countChanges (x :: titleTrace db sid ops) =
      (if x = titleOf db sid then 0 else 1) + countChanges (titleTrace db sid ops) := by
  cases ops <;> rfl

/-- A non-default observable title never changes again: the trace shows
zero changes. -/
theorem countChanges_stable (db : DB) (sid t : String) (ops : List AddOp)
    (h : titleOf db sid = some t) (hne : t ≠ "New Chat") :
    countChanges (titleTrace db sid ops) = 0 := by
  induction ops generalizing db with
  | nil => rfl
  | cons op ops ih =>
    have h1 : titleOf (applyAdd db op) sid = some t := titleOf_applyAdd_stable db sid t op h hne
    rw [titleTrace_cons_eq, countChanges_cons_trace, if_pos (by rw [h, h1]),
      ih (applyAdd db op) h1]

/-- The observable title of any session changes at most once along any
sequence of `add_message` calls. -/
theorem countChanges_titleTrace_le_one (db : DB) (sid : String) (ops : List AddOp) :
    countChanges (titleTrace db sid ops) ≤ 1 := by
  induction ops generalizing db with
  | nil => simp [titleTrace, countChanges]
  | cons op ops ih =>
    rw [titleTrace_cons_eq, countChanges_cons_trace]
    by_cases heq : titleOf db sid = titleOf (applyAdd db op) sid
    · rw [if_pos heq]
      simpa using ih (applyAdd db op)
    · obtain ⟨hdef, t, ht, htne⟩ := titleOf_change db sid op (fun hx => heq hx.symm)
      rw [if_neg heq, countChanges_stable (applyAdd db op) sid t ops ht htne]

/-- C3: A session title changes at most once, and only while it still
equals the default `New Chat`: a row whose title an `add_message` call
changed had the default title; once the observable title is any
non-default value, no sequence of further appended messages changes it;
and along any sequence of appends the observable title changes at most
once. -/
theorem session_title_changes_at_most_once :
    (∀ (sid sender content : String) (now : Nat) (s : SessionRow),
        (updSessionOnMessage sid sender content now s).title ≠ s.title →
          s.title = "New Chat") ∧
    (∀ (db : DB) (sid t : String) (ops : List AddOp),
        titleOf db sid = some t → t ≠ "New Chat" →
          titleOf (applyAdds db ops) sid = some t) ∧
    (∀ (db : DB) (sid : String) (ops : List AddOp),
        countChanges (titleTrace db sid ops) ≤ 1) :=
  ⟨updSessionOnMessage_change, titleOf_applyAdds_stable, countChanges_titleTrace_le_one⟩

/-- Concrete run of C3: the title of `s1` (already `Hi`) is untouched by
a further user message. -/
theorem session_title_changes_at_most_once_witness :
    titleOf (applyAdds dbA [⟨"s1", "user", "second message", none, 7⟩]) "s1" = some "Hi" :=
  session_title_changes_at_most_once.2.1 dbA "s1" "Hi"
    [⟨"s1", "user", "second message", none, 7⟩] (by rfl) (by decide)

/-! ## Theorems: deletion, retrieval order, search -/

/-- C2 (code bug): `delete_session` removes the session row (and is a
no-op on an absent id), but the cascade never fires — the sqlite3
connections never enable `PRAGMA foreign_keys`, so after deleting `s1`
its message is still returned by `get_messages`. -/
theorem delete_session_no_cascade :
    get_session (delete_session dbA "s1") "s1" = none ∧
    get_messages (delete_session dbA "s1") "s1" = [⟨"user", "Hi", none, 0⟩] ∧
    delete_session dbA "absent" = dbA := by
  refine ⟨rfl, ?_, rfl⟩
  decide

/-- C9 counterexample: after `delete_session dbA "s1"` the id `s1` is
unknown (`get_session` returns `None`), yet `get_messages` on it returns
the orphaned message rather than the empty sequence. -/
theorem get_messages_unknown_session_nonempty :
    get_session (delete_session dbA "s1") "s1" = none ∧
    get_messages (delete_session dbA "s1") "s1" ≠ [] := by
  refine ⟨rfl, ?_⟩
  decide

/-- A session id referenced by no message row retrieves the empty
sequence. -/
theorem get_messages_nil (db : DB) (sid : String)
    (hnone : ∀ m ∈ db.messages, m.session_id ≠ sid) : get_messages db sid = [] := by
  unfold get_messages
  have hfil : db.messages.filter (fun m => m.session_id == sid) = [] := by
    rw [List.filter_eq_nil_iff]
    intro m hm
    simpa using hnone m hm
  rw [hfil]
  rfl

/-- C9 (amended): `get_messages` always returns rows in non-decreasing
timestamp order; whenever the stored rows carry non-decreasing
timestamps in insertion order (the clock is monotone), the returned
sequence is exactly the insertion-order filter, reconstructing turn
order; and an id referenced by no message row yields the empty
sequence (an id orphaned by `delete_session` may not). -/
theorem get_messages_ordering (db : DB) (sid : String) :
    List.Pairwise (fun a b : MessageOut => a.timestamp ≤ b.timestamp) (get_messages db sid) ∧
    (List.Pairwise (fun a b : MessageRow => a.timestamp ≤ b.timestamp) db.messages →
      get_messages db sid =
        (db.messages.filter (fun m => m.session_id == sid)).map
          (fun m => ⟨m.sender, m.content, m.formatted_content, m.timestamp⟩)) ∧
    ((∀ m ∈ db.messages, m.session_id ≠ sid) → get_messages db sid = []) := by
  refine ⟨?_, ?_, ?_⟩
  · have hs := List.sorted_insertionSort byTimeAsc
      (db.messages.filter (fun m => m.session_id == sid))
    exact hs.map _ (fun a b h => h)
  · intro hmono
    unfold get_messages
    have hfil : List.Pairwise byTimeAsc (db.messages.filter (fun m => m.session_id == sid)) :=
      List.Pairwise.filter _ hmono
    rw [List.Sorted.insertionSort_eq hfil]
  · exact get_messages_nil db sid

/-- Concrete run of C9: on a store written under a monotone clock the
retrieved sequence is the insertion-order filter, and a never-used id
yields the empty sequence. -/
theorem get_messages_ordering_witness :
    get_messages dbHello "s1" =
      [⟨"user", "say hello", none, 3⟩, ⟨"assistant", "bye", none, 5⟩] ∧
    get_messages dbHello "nosuch" = [] := by
  constructor
  · rw [(get_messages_ordering dbHello "s1").2.1 (by decide)]
    decide
  · exact (get_messages_ordering dbHello "nosuch").2.2 (by decide)

/-- Concrete run of C8: an 11-character first user message becomes the
title verbatim. -/
theorem first_user_message_title_witness :
    titleOf (add_message dbFresh "s1" "user" "Hello there" none 1) "s1" =
      some (if ("Hello there" : String).length ≤ 50 then "Hello there"
            else ("Hello there" : String).take 50 ++ "...") :=
  first_user_message_title dbFresh "s1" "Hello there" none 1
    ⟨"s1", 0, 0, "New Chat", "gemini-1.5-flash"⟩ (by rfl) (by rfl)

/-- A wildcard-free pattern followed by `%` matches a string exactly
when the pattern is a case-insensitive prefix of it. -/
theorem likeMatch_append_pct (q : List Char) (hw : ∀ c ∈ q, c ≠ '%' ∧ c ≠ '_') :
    ∀ s : List Char, likeMatch (q ++ ['%']) s = true → isPrefixCI q s = true := by
  induction q with
  | nil => intro s _; rfl
  | cons c q ih =>
    intro s h
    have hc := hw c (List.mem_cons_self c q)
    rw [List.cons_append] at h
    unfold likeMatch at h
    rw [if_neg hc.1] at h
    cases s with
    | nil => simp at h
    | cons d s2 =>
      dsimp only at h
      rw [if_neg hc.2] at h
      have h1 := (Bool.and_eq_true _ _).mp h
      have h2 := ih (fun x hx => hw x (List.mem_cons_of_mem c hx)) s2 h1.2
      unfold isPrefixCI
      rw [h1.1, h2]
      rfl

/-- A pattern starting with `%` matches a string exactly when the rest
of the pattern matches some suffix of it. -/
theorem likeMatch_pct_cons (ps : List Char) (s : List Char)
    (h : likeMatch ('%' :: ps) s = true) :
    ∃ s2, List.IsSuffix s2 s ∧ likeMatch ps s2 = true := by
  unfold likeMatch at h
  rw [if_pos rfl] at h
  obtain ⟨s2, hmem, hm⟩ := List.any_eq_true.mp h
  exact ⟨s2, (List.mem_tails s2 s).mp hmem, hm⟩

/-- A case-insensitive prefix of a suffix is a case-insensitive
substring. -/
theorem containsCI_of_suffix (q : List Char) :
    ∀ s s2 : List Char, List.IsSuffix s2 s → isPrefixCI q s2 = true →
      containsCI s q = true := by
  intro s
  induction s with
  | nil =>
    intro s2 hsuf hp
    have hnil : s2 = [] := List.suffix_nil.mp hsuf
    subst hnil
    exact hp
  | cons c s3 ih =>
    intro s2 hsuf hp
    rcases List.suffix_cons_iff.mp hsuf with heq | hsuf2
    · subst heq
      unfold containsCI
      rw [hp]
      rfl
    · unfold containsCI
      rw [ih s2 hsuf2 hp]
      simp

/-- `LIKE`-matching the pattern built by `search_messages` with a
wildcard-free query implies case-insensitive substring containment. -/
theorem likeMatch_contains (q : List Char) (hw : ∀ c ∈ q, c ≠ '%' ∧ c ≠ '_')
    (s : List Char) (h : likeMatch ('%' :: (q ++ ['%'])) s = true) :
    containsCI s q = true := by
  obtain ⟨s2, hsuf, hm⟩ := likeMatch_pct_cons (q ++ ['%']) s h
  exact containsCI_of_suffix q s s2 hsuf (likeMatch_append_pct q hw s2 hm)

/-- C4 counterexample: the one-character query `_` is a `LIKE` wildcard,
so `search_messages` returns the message whose content is `x`, although
`x` does not contain `_` as a substring (neither case-sensitively nor
case-insensitively). -/
theorem search_messages_wildcard_counterexample :
    search_messages dbX "_" 50 = [⟨"s1", "t1", "user", "x", 0⟩] ∧
    containsCI ("x".toList) ("_".toList) = false ∧
    ¬ List.IsInfix ("_".toList) ("x".toList) := by
  refine ⟨by decide, by decide, by decide⟩

/-- C4 (amended): for a query containing no `LIKE` metacharacter (`%`
or `_`), every row returned by `search_messages` has the query as a
case-insensitive (ASCII folding, the SQLite `LIKE` collation) substring
of its content; the results are ordered most recent first (timestamps
non-increasing); and at most `limit` rows are returned (the caller
default is 50). -/
theorem search_messages_spec (db : DB) (q : String) (limit : Nat)
    (hw : ∀ c ∈ q.toList, c ≠ '%' ∧ c ≠ '_') :
    (∀ r ∈ search_messages db q limit, containsCI r.content.toList q.toList = true) ∧
    List.Pairwise (fun a b : SearchHit => b.timestamp ≤ a.timestamp)
      (search_messages db q limit) ∧
    (search_messages db q limit).length ≤ limit := by
  refine ⟨?_, ?_, ?_⟩
  · intro r hr
    simp only [search_messages] at hr
    have hr1 := (List.take_sublist _ _).subset hr
    have hr2 := (List.mem_insertionSort byTimeDesc).mp hr1
    have hr3 := (List.mem_filter.mp hr2).2
    exact likeMatch_contains q.toList hw r.content.toList hr3
  · simp only [search_messages]
    exact ((List.sorted_insertionSort byTimeDesc _)).sublist (List.take_sublist _ _)
  · simp only [search_messages]
    rw [List.length_take]
    exact Nat.min_le_left _ _

/-- Concrete run of C4: searching `hello` in a populated store gives a
most-recent-first, at-most-50-row result. -/
theorem search_messages_spec_witness :
    List.Pairwise (fun a b : SearchHit => b.timestamp ≤ a.timestamp)
      (search_messages dbHello "hello" 50) ∧
    (search_messages dbHello "hello" 50).length ≤ 50 :=
  ⟨(search_messages_spec dbHello "hello" 50 (by decide)).2.1,
   (search_messages_spec dbHello "hello" 50 (by decide)).2.2⟩

/-! ## Theorems: validation, export error handling -/

/-- C5 counterexample: a `/search` request with an empty query is
answered with status 200 and `{'results': []}` — it is not reported as
an error and is not rejected. -/
theorem search_empty_query_not_error :
    search_route st0 (some "") = (st0, SearchResp.ok []) ∧
    (search_route st0 (some "")).2.isErr = false :=
  ⟨rfl, rfl⟩

/-- C5 (amended): an empty chat message is a validation error — `/chat`
rejects it with a 400 error and mutates no state — but an empty (or
absent) search query is not an error: `/search` answers success with an
empty result list, also mutating no state. -/
theorem empty_input_handling (st : AppState) (body : ChatBody) (reply : String) (now : Nat)
    (hmsg : body.message.getD "" = "") :
    chat_route st body reply now = (st, ChatResp.err400 "No message provided") ∧
    search_route st (some "") = (st, SearchResp.ok []) ∧
    search_route st none = (st, SearchResp.ok []) := by
  refine ⟨?_, rfl, rfl⟩
  simp [chat_route, hmsg]

/-- Concrete run of C5: a `/chat` body with the empty message is
rejected with the 400 error and the state is unchanged. -/
theorem empty_input_handling_witness :
    chat_route st0 ⟨some "", none⟩ "ignored" 0 = (st0, ChatResp.err400 "No message provided") :=
  (empty_input_handling st0 ⟨some "", none⟩ "ignored" 0 (by rfl)).1

/-- C6 counterexample: exporting a missing session id behaves
differently across the two formats — `json` yields a document with a
null session and empty messages, while `txt` raises the `TypeError`
from subscripting `None` (not a defined `NotFound`). -/
theorem export_missing_inconsistent :
    (export_session emptyDB "missing" "json").1 = ExportResult.ok (ExportDoc.jsonDoc none []) ∧
    (export_session emptyDB "missing" "txt").1 = ExportResult.typeError :=
  ⟨rfl, rfl⟩

/-- C6 (amended): for a session id absent from the store (and referenced
by no message row), `export_session` with format `json` yields a
document with a null session and empty messages, while format `txt`
fails with the `TypeError` raised by subscripting `None` — the two
formats do not behave consistently. -/
theorem export_missing_behavior (db : DB) (sid : String) (h : get_session db sid = none)
    (horph : ∀ m ∈ db.messages, m.session_id ≠ sid) :
    (export_session db sid "json").1 = ExportResult.ok (ExportDoc.jsonDoc none []) ∧
    (export_session db sid "txt").1 = ExportResult.typeError := by
  have hmsg : get_messages db sid = [] := get_messages_nil db sid horph
  constructor
  · simp [export_session, h, hmsg]
  · simp [export_session, h]

/-- Concrete run of C6: the two formats on an absent id in the empty
store. -/
theorem export_missing_behavior_witness :
    (export_session emptyDB "absent" "json").1 = ExportResult.ok (ExportDoc.jsonDoc none []) ∧
    (export_session emptyDB "absent" "txt").1 = ExportResult.typeError :=
  export_missing_behavior emptyDB "absent" (by rfl) (by decide)

/-- C7 counterexample: the store-level `export_session` with format
`xml` does fail with the unsupported-format error, but only after both
store reads: the trace of I/O performed before the rejection is
nonempty. -/
theorem export_bad_format_after_io :
    export_session emptyDB "s" "xml" =
      (ExportResult.valueError "Unsupported format: xml",
        [StoreOp.getSession "s", StoreOp.getMessages "s"]) ∧
    (export_session emptyDB "s" "xml").2 ≠ [] :=
  ⟨rfl, by decide⟩

/-- C7 (amended): for every format other than `json` and `txt`, the
HTTP dispatcher rejects the request with a 400 error and performs no
store I/O (empty trace), while the store-level `export_session` raises
`ValueError` for the format — but only after reading the session and
the messages (the two reads precede the rejection). -/
theorem export_unsupported_format (db : DB) (sid fmt : String)
    (h1 : fmt ≠ "json") (h2 : fmt ≠ "txt") :
    export_route db sid fmt = (HttpExportResp.err400 "Invalid format. Use json or txt", []) ∧
    (export_session db sid fmt).1 = ExportResult.valueError ("Unsupported format: " ++ fmt) ∧
    (export_session db sid fmt).2 = [StoreOp.getSession sid, StoreOp.getMessages sid] := by
  refine ⟨?_, ?_, ?_⟩
  · simp [export_route, h1, h2]
  · simp [export_session, h1, h2]
  · simp [export_session, h1, h2]

/-- Concrete run of C7: the dispatcher rejects the `xml` format with no
store I/O. -/
theorem export_unsupported_format_witness :
    export_route emptyDB "sid1" "xml" =
      (HttpExportResp.err400 "Invalid format. Use json or txt", []) :=
  (export_unsupported_format emptyDB "sid1" "xml" (by decide) (by decide)).1

/-! ## Theorems: the `/chat` default session -/

/-- A list on which `find?` fails has `any` false for the same
predicate. -/
theorem any_eq_false_of_find?_none {α : Type} (p : α → Bool) (l : List α)
    (h : l.find? p = none) : l.any p = false := by
  rw [List.any_eq_false]
  intro x hx
  simpa using List.find?_eq_none.mp h x hx

/-- C10: a `/chat` request that omits `session_id` (and carries a
nonempty message) runs under the literal id `default`: when no session
named `default` exists in the store (and no in-memory context holds it,
which is the case whenever the store session is absent), the session is
created there, the user message and the formatted assistant reply are
appended under `default` as the next two message rows, and the
response carries `session_id = "default"`. -/
theorem chat_route_default_session (st : AppState) (m reply : String) (now : Nat)
    (hm : m ≠ "") (hdb : get_session st.db "default" = none)
    (hctx : st.chat_sessions.lookup "default" = none) :
    (chat_route st ⟨some m, none⟩ reply now).2 =
      ChatResp.ok (renderForest (format_message reply)) reply "default" ∧
    get_session (chat_route st ⟨some m, none⟩ reply now).1.db "default" =
      some ⟨"default", now, now, titleFor m, "gemini-1.5-flash"⟩ ∧
    (chat_route st ⟨some m, none⟩ reply now).1.db.messages = st.db.messages ++
      [⟨st.db.nextId, "default", "user", m, none, now⟩,
       ⟨st.db.nextId + 1, "default", "assistant", reply,
         some (renderForest (format_message reply)), now⟩] := by
  have hany : (st.db.sessions.any fun s => s.id == "default") = false :=
    any_eq_false_of_find?_none _ _ hdb
  have hcreate : create_session st.db "default" none now =
      some { st.db with sessions := st.db.sessions ++
        [⟨"default", now, now, "New Chat", "gemini-1.5-flash"⟩] } := by
    unfold create_session
    rw [if_neg (by simp [hany])]
  have hs1 : get_session { st.db with sessions := st.db.sessions ++
        [⟨"default", now, now, "New Chat", "gemini-1.5-flash"⟩] } "default" =
      some ⟨"default", now, now, "New Chat", "gemini-1.5-flash"⟩ := by
    unfold get_session at hdb ⊢
    rw [List.find?_append, hdb]
    rfl
  have hs2 : get_session (add_message { st.db with sessions := st.db.sessions ++
        [⟨"default", now, now, "New Chat", "gemini-1.5-flash"⟩] }
        "default" "user" m none now) "default" =
      some ⟨"default", now, now, titleFor m, "gemini-1.5-flash"⟩ := by
    rw [get_session_add_message, hs1]
    simp [updSessionOnMessage]
  have hs3 : get_session (add_message (add_message { st.db with sessions :=
        st.db.sessions ++ [⟨"default", now, now, "New Chat", "gemini-1.5-flash"⟩] }
        "default" "user" m none now) "default" "assistant" reply
        (some (renderForest (format_message reply))) now) "default" =
      some ⟨"default", now, now, titleFor m, "gemini-1.5-flash"⟩ := by
    rw [get_session_add_message, hs2]
    simp [updSessionOnMessage]
  have hroute : chat_route st ⟨some m, none⟩ reply now =
      (⟨add_message (add_message { st.db with sessions := st.db.sessions ++
            [⟨"default", now, now, "New Chat", "gemini-1.5-flash"⟩] }
            "default" "user" m none now) "default" "assistant" reply
            (some (renderForest (format_message reply))) now,
        ((st.chat_sessions ++ [("default",
            historyFromMessages (get_messages { st.db with sessions := st.db.sessions ++
              [⟨"default", now, now, "New Chat", "gemini-1.5-flash"⟩] } "default"))]).map
          (fun e => if e.1 == "default" then
              (e.1, e.2 ++ [Turn.user m, Turn.model reply]) else e))⟩,
        ChatResp.ok (renderForest (format_message reply)) reply "default") := by
    simp [chat_route, hm, hctx, hdb, hcreate]
  refine ⟨?_, ?_, ?_⟩
  · rw [hroute]
  · rw [hroute]
    exact hs3
  · rw [hroute]
    simp [add_message, List.append_assoc]

/-- Concrete run of C10: on the empty application state, a `/chat`
request omitting `session_id` creates `default` in the store, appends
both turns under it, and answers with `session_id = "default"`. -/
theorem chat_route_default_session_witness :
    (chat_route st0 ⟨some "Hi", none⟩ "Hello" 5).2 =
      ChatResp.ok (renderForest (format_message "Hello")) "Hello" "default" ∧
    get_session (chat_route st0 ⟨some "Hi", none⟩ "Hello" 5).1.db "default" =
      some ⟨"default", 5, 5, titleFor "Hi", "gemini-1.5-flash"⟩ ∧
    (chat_route st0 ⟨some "Hi", none⟩ "Hello" 5).1.db.messages = st0.db.messages ++
      [⟨st0.db.nextId, "default", "user", "Hi", none, 5⟩,
       ⟨st0.db.nextId + 1, "default", "assistant", "Hello",
         some (renderForest (format_message "Hello")), 5⟩] :=
  chat_route_default_session st0 "Hi" "Hello" 5 (by decide) (by rfl) (by rfl)

end GeminiFlask
